import Mathlib

/-!
Shallow embedding of the weather-strategy dashboard `op.py`.

Conventions of the embedding:
* Timestamps are rationals, measured in minutes (so `timedelta(hours=h)`
  is `h * 60`).
* All numeric quantities are rationals (the source works with Python /
  numpy floats; exact rational arithmetic stands in for them).
* pandas `max()` / `mean()` over a possibly-empty column are modelled as
  `Option ℚ`: `none` models the `NaN` produced on an empty column.
  A comparison `NaN > c` evaluates to `False` in Python, which `nan_gt`
  mirrors for `none`.
* The weather fetch and the GPX file parsing are external collaborators;
  a fetch is modelled by its outcome `Option (List ForecastSample)`, where
  `none` models any exception raised inside the `try` block of
  `get_weather_data` (the `except` clause returns `None`).
* Waypoint labels are carried as an inductive `Label`; `Label.render`
  produces the exact strings built by the f-strings of the source
  (`"START"`, `"KM {int(total_dist)}"`, `"FINISH"`).
-/

/-- One row of the forecast data frame built in `get_weather_data`
(columns `time, temp, precip, wind, cloud, dir`). -/
structure ForecastSample where
  time : ℚ
  temp : ℚ
  precip : ℚ
  wind : ℚ
  cloud : ℚ
  dir : ℚ
deriving DecidableEq, Repr

/-- Convenience constructor for samples whose non-time fields are fixed. -/
def mkS (t : ℚ) : ForecastSample :=
  { time := t, temp := 20, precip := 0, wind := 10, cloud := 50, dir := 180 }

/-- The window filter of `get_weather_data` (op.py lines 53–57):
`hours = 3 if mode == "circuit" else 1` and
`df = df[(df['time'] >= now) & (df['time'] <= now + timedelta(hours=hours))]`. -/
def select_window (mode : String) (now : ℚ) (df : List ForecastSample) :
    List ForecastSample :=
  let hours : ℚ := if mode == "circuit" then 3 else 1
  df.filter (fun s => now ≤ s.time ∧ s.time ≤ now + hours * 60)

/-- pandas `Series.max()`: `none` models the `NaN` returned on an empty
column; on a non-empty column it is the maximum. -/
def series_max : List ℚ → Option ℚ
  | [] => none
  | x :: xs => some (xs.foldl max x)

/-- pandas `Series.mean()`: `none` models the `NaN` returned on an empty
column; on a non-empty column it is `sum / length`. -/
def series_mean (xs : List ℚ) : Option ℚ :=
  match xs with
  | [] => none
  | _ => some (xs.sum / (xs.length : ℚ))

/-- Python comparison `x > c` where `x` may be `NaN` (modelled `none`):
`NaN > c` is `False`. -/
def nan_gt (x : Option ℚ) (c : ℚ) : Bool :=
  match x with
  | none => false
  | some v => decide (c < v)

/-- The dictionary returned by `get_weather_data` in rally mode
(spec name: RallyPointSummary). `precip_max`, `temp`, `wind` are
`none` exactly when the corresponding pandas aggregate is `NaN`. -/
structure RallyPointSummary where
  precip_max : Option ℚ
  temp : Option ℚ
  wind : Option ℚ
  risk : String
deriving DecidableEq, Repr

/-- The rally-mode aggregation of `get_weather_data` (op.py lines 59–66):
`{"precip_max": df['precip'].max(), "temp": df['temp'].mean(),
"wind": df['wind'].mean(), "risk": "WET" if df['precip'].max() > 0.2 else "DRY"}`. -/
def rally_summary (df : List ForecastSample) : RallyPointSummary :=
  { precip_max := series_max (df.map (·.precip))
    temp := series_mean (df.map (·.temp))
    wind := series_mean (df.map (·.wind))
    risk := if nan_gt (series_max (df.map (·.precip))) (2/10) then "WET" else "DRY" }

/-- `get_weather_data(lat, lon, mode="rally")` (op.py lines 16–71), as a
function of the fetch outcome: `raw = none` models any exception inside the
`try` block (the function returns `None`); otherwise the fetched series is
window-filtered and summarised. -/
def get_weather_data_rally (now : ℚ) (raw : Option (List ForecastSample)) :
    Option RallyPointSummary :=
  raw.map (fun series => rally_summary (select_window "rally" now series))

/-- `get_weather_data(lat, lon, mode="circuit")` (op.py lines 16–71):
returns the window-filtered timeline, or `None` on an exception. -/
def get_weather_data_circuit (now : ℚ) (raw : Option (List ForecastSample)) :
    Option (List ForecastSample) :=
  raw.map (select_window "circuit" now)

/-- Python `int()` on a rational: truncation toward zero. -/
def py_int (q : ℚ) : ℤ :=
  if q < 0 then ⌈q⌉ else ⌊q⌋

/-- Waypoint labels built by `parse_gpx_route`: `"START"`, `f"KM {int(total_dist)}"`,
`"FINISH"`. The `KM` payload is the `int(total_dist)` of the f-string. -/
inductive Label where
  | START : Label
  | KM : ℤ → Label
  | FINISH : Label
deriving DecidableEq, Repr

/-- The exact string of the source's waypoint `name` field. -/
def Label.render : Label → String
  | .START => "START"
  | .KM n => "KM " ++ toString n
  | .FINISH => "FINISH"

/-- A waypoint dictionary `{"name": …, "lat": …, "lon": …}` of
`parse_gpx_route`; the position type `P` abstracts the lat/lon pair. -/
structure Waypoint (P : Type) where
  name : Label
  pos : P
deriving DecidableEq, Repr

/-- The `for p in points:` loop of `parse_gpx_route` (op.py lines 86–91),
parameterised by the geodesic distance `d` (geopy `geodesic(...).kilometers`,
an external collaborator). State: `last` is the running anchor, `total` the
running cumulative distance `total_dist`. -/
def routeLoop {P : Type} (d : P → P → ℚ) (step : ℚ) :
    List P → P → ℚ → List (Waypoint P)
  | [], _, _ => []
  | p :: ps, last, total =>
    let dist := d last p
    if step ≤ dist then
      { name := Label.KM (py_int (total + dist)), pos := p } ::
        routeLoop d step ps p (total + dist)
    else
      routeLoop d step ps last total

/-- `parse_gpx_route` (op.py lines 73–95) after the gpxpy point extraction
(an external collaborator): acts on the ordered point list. Empty input
returns `[]`; otherwise `START` at the first point, the sampling loop over
all points (anchor initially the first point, cumulative distance 0), and
`FINISH` at the last point, unconditionally appended. -/
def parse_gpx_route {P : Type} (d : P → P → ℚ) (step : ℚ) :
    List P → List (Waypoint P)
  | [] => []
  | p :: ps =>
    { name := Label.START, pos := p } ::
      (routeLoop d step (p :: ps) p 0 ++
        [{ name := Label.FINISH, pos := (p :: ps).getLast (List.cons_ne_nil p ps) }])

/-- Distance along a line: the geodesic distance between colinear points
identified by their (signed) position in kilometres (`|a - b|`). -/
def dabs (a b : ℚ) : ℚ := if a ≤ b then b - a else a - b

/-- The tire/colour decision of `get_strategy` (op.py lines 97–107).
The subsequent `pd.Series` construction (lines 109–115) only formats
fields for display and is not part of the decision. -/
structure StrategyRow where
  tire : String
  color : String
deriving DecidableEq, Repr

/-- `get_strategy` (op.py lines 97–107): `precip == 0 → SLICKS`,
`elif precip < 0.5 → INTERS`, `else WETS`. -/
def get_strategy (precip : ℚ) : StrategyRow :=
  if precip = 0 then { tire := "SLICKS", color := "green" }
  else if precip < 1/2 then { tire := "INTERS", color := "orange" }
  else { tire := "WETS", color := "red" }

/-- One row of the rally results table (op.py lines 187–193). The source
formats `precip_max`, `wind`, `temp` with f-strings; the embedding keeps the
underlying values (`none` models a `NaN` that would print as `"nan"`). -/
structure Row where
  punt : String
  status : String
  regen : Option ℚ
  wind : Option ℚ
  temp : Option ℚ
deriving DecidableEq, Repr

/-- The rally loop over waypoints (op.py lines 184–194): for each waypoint
call `get_weather_data(..., mode="rally")`; `if w:` keeps the row exactly
when the call did not return `None` (the returned dict is never empty, so
truthiness is `isSome`); rows are appended in route order. The fetch
outcome per waypoint is abstracted by `fetch`. -/
def rally_results {P : Type} (now : ℚ)
    (fetch : Waypoint P → Option (List ForecastSample))
    (wps : List (Waypoint P)) : List Row :=
  wps.filterMap (fun wp =>
    (get_weather_data_rally now (fetch wp)).map (fun w =>
      { punt := wp.name.render, status := w.risk
        regen := w.precip_max, wind := w.wind, temp := w.temp }))

/-- The numeric values of the `KM` labels of a waypoint list, in order. -/
def km_values {P : Type} (ws : List (Waypoint P)) : List ℤ :=
  ws.filterMap (fun w =>
    match w.name with
    | Label.KM n => some n
    | _ => none)

/-- Concrete sample with maximum precipitation exactly 0.2 mm. -/
def sA : ForecastSample :=
  { time := 0, temp := 10, precip := 2/10, wind := 20, cloud := 50, dir := 180 }

/-- Concrete sample with smaller precipitation. -/
def sB : ForecastSample :=
  { time := 15, temp := 20, precip := 1/10, wind := 10, cloud := 50, dir := 180 }

/-- Concrete fetch outcome: fails (raises, hence `None`) exactly at position 1. -/
def fetchW : Waypoint ℚ → Option (List ForecastSample) :=
  fun wp => if wp.pos = 1 then none else some [mkS 30]

lemma select_window_rally (now : ℚ) (df : List ForecastSample) :
    select_window "rally" now df =
      df.filter (fun s => now ≤ s.time ∧ s.time ≤ now + 1 * 60) := rfl

lemma select_window_circuit (now : ℚ) (df : List ForecastSample) :
    select_window "circuit" now df =
      df.filter (fun s => now ≤ s.time ∧ s.time ≤ now + 3 * 60) := rfl

lemma foldl_max_le_init (x : ℚ) (xs : List ℚ) : x ≤ xs.foldl max x := by
  induction xs generalizing x with
  | nil => exact le_refl x
  | cons a l ih => exact le_trans (le_max_left x a) (ih (max x a))

lemma foldl_max_mem (x : ℚ) (xs : List ℚ) :
    xs.foldl max x = x ∨ xs.foldl max x ∈ xs := by
  induction xs generalizing x with
  | nil => exact Or.inl rfl
  | cons a l ih =>
    rcases ih (max x a) with h | h
    · rcases max_choice x a with hx | hx
      · exact Or.inl (by rw [List.foldl_cons, h, hx])
      · exact Or.inr (by rw [List.foldl_cons, h, hx]; exact List.mem_cons_self a l)
    · exact Or.inr (List.mem_cons_of_mem a h)

lemma le_foldl_max (x : ℚ) (xs : List ℚ) : ∀ y ∈ xs, y ≤ xs.foldl max x := by
  induction xs generalizing x with
  | nil => intro y hy; cases hy
  | cons a l ih =>
    intro y hy
    rcases List.mem_cons.mp hy with rfl | hy
    · exact le_trans (le_max_right x y) (foldl_max_le_init (max x y) l)
    · exact ih (max x a) y hy

/-- C1: the spec demands that an empty forecast window fail with NoData and
never be reported as DRY; the code instead returns the rally summary
dictionary with NaN aggregates and `risk = "DRY"` (pandas `max`/`mean` of an
empty column are NaN, and `NaN > 0.2` is `False`), both for an empty window
and for a fetched series none of whose samples fall in the look-ahead
window. -/
theorem c1_empty_window_reported_dry :
    rally_summary [] =
      { precip_max := none, temp := none, wind := none, risk := "DRY" } ∧
    get_weather_data_rally 0 (some [mkS 240]) =
      some { precip_max := none, temp := none, wind := none, risk := "DRY" } := by
  constructor
  · rfl
  · norm_num [get_weather_data_rally, select_window_rally, mkS, List.filter,
      rally_summary, series_max, series_mean, nan_gt]

/-- C2 (counterexample): under the code's single-location timeline mode
(`mode = "circuit"`) the sample at `now - 10min` is NOT kept: the series
with timestamps `now-20min, now-10min, now+1h, now+4h` yields only the
`now+1h` sample, not the claimed middle two. -/
theorem c2_counterexample :
    select_window "circuit" 0 [mkS (-20), mkS (-10), mkS 60, mkS 240] = [mkS 60] ∧
    select_window "circuit" 0 [mkS (-20), mkS (-10), mkS 60, mkS 240] ≠
      [mkS (-10), mkS 60] := by
  constructor
  · norm_num [select_window, mkS, List.filter]
  · norm_num [select_window, mkS, List.filter]

/-- C2 (amended): under the single-location timeline mode (`mode = "circuit"`)
the window selector keeps exactly the samples with
`now <= timestamp <= now + 3h` — there is no 15-minute trailing grace — and
on the series with timestamps `now-20min, now-10min, now+1h, now+4h` it
returns exactly the `now+1h` sample. -/
theorem c2_amended_timeline_window (now : ℚ) (df : List ForecastSample)
    (s : ForecastSample) :
    (s ∈ select_window "circuit" now df ↔
      s ∈ df ∧ now ≤ s.time ∧ s.time ≤ now + 180) ∧
    select_window "circuit" 0 [mkS (-20), mkS (-10), mkS 60, mkS 240] =
      [mkS 60] := by
  constructor
  · simp only [select_window, List.mem_filter]
    norm_num
  · norm_num [select_window, mkS, List.filter]

/-- C8: the window selector keeps exactly the samples with
`now <= timestamp <= now + 1h` in the per-rally-waypoint mode
(`mode = "rally"`, the spec's point-lookahead), and exactly those with
`now <= timestamp <= now + 3h` in the 3-hour scan mode
(`mode = "circuit"`, the spec's route-scan horizon). -/
theorem c8_window_bounds (now : ℚ) (df : List ForecastSample)
    (s : ForecastSample) :
    (s ∈ select_window "rally" now df ↔
      s ∈ df ∧ now ≤ s.time ∧ s.time ≤ now + 60) ∧
    (s ∈ select_window "circuit" now df ↔
      s ∈ df ∧ now ≤ s.time ∧ s.time ≤ now + 180) := by
  constructor
  · simp only [select_window_rally, List.mem_filter]
    norm_num
  · simp only [select_window_circuit, List.mem_filter]
    norm_num

/-- C5: the route/circuit strategy classifier uses exactly the breakpoints
0 and 0.5 mm and the three tire tags SLICKS / INTERS / WETS:
`precip == 0 → SLICKS`, `0 < precip < 0.5 → INTERS`, `precip ≥ 0.5 → WETS`. -/
theorem c5_strategy_thresholds (p : ℚ) :
    (get_strategy p).tire ∈ (["SLICKS", "INTERS", "WETS"] : List String) ∧
    (p = 0 → (get_strategy p).tire = "SLICKS") ∧
    (0 < p → p < 1/2 → (get_strategy p).tire = "INTERS") ∧
    (1/2 ≤ p → (get_strategy p).tire = "WETS") := by
  refine ⟨?_, fun h0 => ?_, fun hpos hlt => ?_, fun hge => ?_⟩
  · unfold get_strategy; split_ifs <;> simp
  · simp [get_strategy, h0]
  · have h0 : p ≠ 0 := ne_of_gt hpos
    unfold get_strategy
    rw [if_neg h0, if_pos hlt]
  · have h0 : p ≠ 0 := ne_of_gt (lt_of_lt_of_le (by norm_num) hge)
    have hlt : ¬ p < 1/2 := not_lt.mpr hge
    unfold get_strategy
    rw [if_neg h0, if_neg hlt]

/-- C5 witness: the three threshold regions at concrete precipitation
values 0, 0.25 and 0.5 mm. -/
theorem c5_strategy_thresholds_witness :
    (get_strategy 0).tire = "SLICKS" ∧ (get_strategy (1/4)).tire = "INTERS" ∧
      (get_strategy (1/2)).tire = "WETS" :=
  ⟨(c5_strategy_thresholds 0).2.1 rfl,
   (c5_strategy_thresholds (1/4)).2.2.1 (by norm_num) (by norm_num),
   (c5_strategy_thresholds (1/2)).2.2.2 (by norm_num)⟩

/-- C6: for every non-empty forecast window the rally aggregation returns
`precip_max` = the maximum precipitation over the window (a member of the
window that bounds all others), `temp` and `wind` = the means of air
temperature and wind speed, and `risk = "WET"` exactly when the maximum
precipitation is strictly greater than 0.2 mm (so a maximum of exactly
0.2 is tagged `"DRY"`). -/
theorem c6_rally_summary_nonempty (w : List ForecastSample) (h : w ≠ []) :
    ∃ M, (rally_summary w).precip_max = some M ∧
      M ∈ w.map (·.precip) ∧
      (∀ x ∈ w.map (·.precip), x ≤ M) ∧
      (rally_summary w).temp = some ((w.map (·.temp)).sum / (w.length : ℚ)) ∧
      (rally_summary w).wind = some ((w.map (·.wind)).sum / (w.length : ℚ)) ∧
      ((rally_summary w).risk = "WET" ↔ 2/10 < M) ∧
      ((rally_summary w).risk = "DRY" ↔ M ≤ 2/10) := by
  obtain ⟨a, as, rfl⟩ := List.exists_cons_of_ne_nil h
  refine ⟨(as.map (·.precip)).foldl max a.precip, ?_, ?_, ?_, ?_, ?_, ?_, ?_⟩
  · simp [rally_summary, series_max]
  · rcases foldl_max_mem a.precip (as.map (·.precip)) with h1 | h1
    · simp [h1]
    · exact List.mem_cons_of_mem _ h1
  · intro x hx
    rcases List.mem_cons.mp hx with rfl | hx
    · exact foldl_max_le_init _ _
    · exact le_foldl_max _ _ _ hx
  · simp [rally_summary, series_mean]
  · simp [rally_summary, series_mean]
  · by_cases hc : (2/10 : ℚ) < (as.map (·.precip)).foldl max a.precip
    · simp [rally_summary, series_max, nan_gt, hc]
    · simp [rally_summary, series_max, nan_gt, hc]
  · by_cases hc : (2/10 : ℚ) < (as.map (·.precip)).foldl max a.precip
    · simp [rally_summary, series_max, nan_gt, hc, not_le.mpr hc]
    · simp [rally_summary, series_max, nan_gt, hc, not_lt.mp hc]

/-- C6 witness: the aggregation over the concrete two-sample window
`[sA, sB]`, whose maximum precipitation is exactly 0.2 mm. -/
theorem c6_rally_summary_nonempty_witness :
    ∃ M, (rally_summary [sA, sB]).precip_max = some M ∧
      M ∈ [sA, sB].map (·.precip) ∧
      (∀ x ∈ [sA, sB].map (·.precip), x ≤ M) ∧
      (rally_summary [sA, sB]).temp =
        some (([sA, sB].map (·.temp)).sum / (([sA, sB] : List ForecastSample).length : ℚ)) ∧
      (rally_summary [sA, sB]).wind =
        some (([sA, sB].map (·.wind)).sum / (([sA, sB] : List ForecastSample).length : ℚ)) ∧
      ((rally_summary [sA, sB]).risk = "WET" ↔ 2/10 < M) ∧
      ((rally_summary [sA, sB]).risk = "DRY" ↔ M ≤ 2/10) :=
  c6_rally_summary_nonempty [sA, sB] (List.cons_ne_nil sA [sB])

/-- C4: three colinear route points at distances 0, 3 and 6 km from the
start with `step_km = 4` yield exactly `[START@0, "KM 6"@6, FINISH@6]`:
the anchor-to-point distance first reaches ≥ 4 km at the 6 km point,
where the cumulative distance is 6. -/
theorem c4_three_colinear_points :
    parse_gpx_route dabs 4 [0, 3, 6] =
      [{ name := Label.START, pos := 0 }, { name := Label.KM 6, pos := 6 },
       { name := Label.FINISH, pos := 6 }] ∧
    (parse_gpx_route dabs 4 [0, 3, 6]).map (fun w => (w.name.render, w.pos)) =
      [("START", 0), ("KM 6", 6), ("FINISH", 6)] := by
  have h : parse_gpx_route dabs 4 [0, 3, 6] =
      [{ name := Label.START, pos := 0 }, { name := Label.KM 6, pos := 6 },
       { name := Label.FINISH, pos := 6 }] := by
    norm_num [parse_gpx_route, routeLoop, dabs, py_int, List.getLast]
  refine ⟨h, ?_⟩
  rw [h]
  rfl

/-- C7: the route sampler's first output waypoint is `START` at the first
input point, its last is `FINISH` at the last input point (appended
unconditionally, with no de-duplication, so the output always has at least
two waypoints), and the empty input yields the empty output with no
START/FINISH. -/
theorem c7_start_finish {P : Type} (d : P → P → ℚ) (step : ℚ) :
    parse_gpx_route d step ([] : List P) = [] ∧
    ∀ (p : P) (ps : List P),
      (parse_gpx_route d step (p :: ps)).head? =
        some { name := Label.START, pos := p } ∧
      (parse_gpx_route d step (p :: ps)).getLast? =
        some { name := Label.FINISH,
               pos := (p :: ps).getLast (List.cons_ne_nil p ps) } ∧
      2 ≤ (parse_gpx_route d step (p :: ps)).length := by
  refine ⟨rfl, fun p ps => ⟨rfl, ?_, ?_⟩⟩
  · show (({ name := Label.START, pos := p } : Waypoint P) ::
        (routeLoop d step (p :: ps) p 0 ++
          [{ name := Label.FINISH,
             pos := (p :: ps).getLast (List.cons_ne_nil p ps) }])).getLast? = _
    rw [← List.cons_append, List.getLast?_concat]
  · show 2 ≤ (({ name := Label.START, pos := p } : Waypoint P) ::
        (routeLoop d step (p :: ps) p 0 ++
          [{ name := Label.FINISH,
             pos := (p :: ps).getLast (List.cons_ne_nil p ps) }])).length
    simp

lemma routeLoop_length_nonpos_step {P : Type} (d : P → P → ℚ) (step : ℚ)
    (hd : ∀ a b, 0 ≤ d a b) (hstep : step ≤ 0) :
    ∀ (l : List P) (last : P) (total : ℚ),
      (routeLoop d step l last total).length = l.length := by
  intro l
  induction l with
  | nil => intro last total; rfl
  | cons p ps ih =>
    intro last total
    have hc : step ≤ d last p := le_trans hstep (hd last p)
    simp only [routeLoop]
    rw [if_pos hc]
    simp [ih]

/-- C3 (counterexample): with `step_km = 0 ≤ 0` and the two-point route
`[0, 5]`, `parse_gpx_route` does not reject the input: it returns a full
waypoint sequence (every anchor distance is ≥ 0, so every point emits a
KM waypoint). -/
theorem c3_counterexample :
    parse_gpx_route dabs 0 [0, 5] =
      [{ name := Label.START, pos := 0 }, { name := Label.KM 0, pos := 0 },
       { name := Label.KM 5, pos := 5 }, { name := Label.FINISH, pos := 5 }] ∧
    parse_gpx_route dabs 0 [0, 5] ≠ [] := by
  have h : parse_gpx_route dabs 0 [0, 5] =
      [{ name := Label.START, pos := 0 }, { name := Label.KM 0, pos := 0 },
       { name := Label.KM 5, pos := 5 }, { name := Label.FINISH, pos := 5 }] := by
    norm_num [parse_gpx_route, routeLoop, dabs, py_int, List.getLast]
  exact ⟨h, by rw [h]; simp⟩

/-- C3 (amended): `parse_gpx_route` performs no validation of `step_km`.
For `step_km ≤ 0` (distances being nonnegative) it produces a waypoint
sequence instead of an error: every input point emits a KM waypoint, so a
non-empty `n`-point route yields exactly `n + 2` waypoints. -/
theorem c3_no_step_validation {P : Type} (d : P → P → ℚ) (step : ℚ)
    (ps : List P) (hstep : step ≤ 0) (hd : ∀ a b, 0 ≤ d a b) (hne : ps ≠ []) :
    (parse_gpx_route d step ps).length = ps.length + 2 := by
  obtain ⟨p, l, rfl⟩ := List.exists_cons_of_ne_nil hne
  simp [parse_gpx_route, routeLoop_length_nonpos_step d step hd hstep]

/-- C3 witness: the amended statement at the concrete route `[0, 5]` with
`step_km = 0`. -/
theorem c3_no_step_validation_witness :
    (parse_gpx_route dabs 0 [0, 5]).length = 4 :=
  c3_no_step_validation dabs 0 [0, 5] le_rfl
    (fun a b => by unfold dabs; split_ifs with h <;> linarith)
    (List.cons_ne_nil 0 [5])

/-- C9: per-point forecast failures in rally/route mode are isolated; a
waypoint whose fetch raises (modelled `fetch bad = none`) is skipped, and
the rows of all other waypoints are produced unchanged, in route order. -/
theorem c9_failure_isolated {P : Type} (now : ℚ)
    (fetch : Waypoint P → Option (List ForecastSample))
    (xs ys : List (Waypoint P)) (bad : Waypoint P) (h : fetch bad = none) :
    rally_results now fetch (xs ++ bad :: ys) =
      rally_results now fetch xs ++ rally_results now fetch ys := by
  simp [rally_results, List.filterMap_append, List.filterMap_cons, h,
    get_weather_data_rally]

/-- C9 witness: with the concrete fetch `fetchW` (failing exactly at
position 1), the failing middle waypoint is skipped and the outer two are
still rendered in order. -/
theorem c9_failure_isolated_witness :
    rally_results 0 fetchW
        ([{ name := Label.START, pos := 0 }] ++
          { name := Label.KM 1, pos := (1 : ℚ) } ::
            [{ name := Label.FINISH, pos := 2 }]) =
      rally_results 0 fetchW [{ name := Label.START, pos := 0 }] ++
        rally_results 0 fetchW [{ name := Label.FINISH, pos := 2 }] :=
  c9_failure_isolated 0 fetchW
    [{ name := Label.START, pos := 0 }] [{ name := Label.FINISH, pos := 2 }]
    { name := Label.KM 1, pos := (1 : ℚ) } (by simp [fetchW])

lemma km_values_cons_km {P : Type} (n : ℤ) (p : P) (ws : List (Waypoint P)) :
    km_values ({ name := Label.KM n, pos := p } :: ws) = n :: km_values ws := rfl

lemma km_values_parse {P : Type} (d : P → P → ℚ) (step : ℚ) (p : P)
    (ps : List P) :
    km_values (parse_gpx_route d step (p :: ps)) =
      km_values (routeLoop d step (p :: ps) p 0) := by
  simp [parse_gpx_route, km_values, List.filterMap_append, List.filterMap_cons]

lemma routeLoop_km_chain {P : Type} (d : P → P → ℚ) (step : ℚ)
    (hstep : 1 ≤ step) :
    ∀ (l : List P) (last : P) (total : ℚ), 0 ≤ total →
      List.Chain (· < ·) ⌊total⌋ (km_values (routeLoop d step l last total)) := by
  intro l
  induction l with
  | nil => intro last total _; exact List.Chain.nil
  | cons p ps ih =>
    intro last total htot
    by_cases hc : step ≤ d last p
    · have hd1 : (1:ℚ) ≤ d last p := le_trans hstep hc
      have h0 : (0:ℚ) ≤ total + d last p := by linarith
      have hpy : py_int (total + d last p) = ⌊total + d last p⌋ := by
        unfold py_int
        rw [if_neg (not_lt.mpr h0)]
      have hlt : ⌊total⌋ < ⌊total + d last p⌋ := by
        have h1 : total + 1 ≤ total + d last p := by linarith
        have h2 : ⌊total + 1⌋ ≤ ⌊total + d last p⌋ := Int.floor_le_floor h1
        rw [Int.floor_add_one] at h2
        omega
      simp only [routeLoop]
      rw [if_pos hc, km_values_cons_km, hpy]
      exact List.Chain.cons hlt (ih p (total + d last p) h0)
    · simp only [routeLoop]
      rw [if_neg hc]
      exact ih last total htot

/-- C10 (amended): for every point sequence and every `step_km ≥ 1`, the
numeric values of the `"KM n"` labels are strictly increasing along the
output: the cumulative distance grows by at least `step_km ≥ 1` km at each
emission, so the truncated label values grow too. (For `0 < step_km < 1`
the truncation `int(total_dist)` can repeat, see the counterexample.) -/
theorem c10_km_labels_strictly_increasing {P : Type} (d : P → P → ℚ)
    (step : ℚ) (ps : List P) (hstep : 1 ≤ step) :
    List.Pairwise (· < ·) (km_values (parse_gpx_route d step ps)) := by
  cases ps with
  | nil => exact List.Pairwise.nil
  | cons p l =>
    rw [km_values_parse]
    have h := routeLoop_km_chain d step hstep (p :: l) p 0 le_rfl
    exact (List.chain_iff_pairwise.mp h).of_cons

/-- C10 (counterexample): with `step_km = 3/10 > 0` and colinear points at
0, 0.3 and 0.6 km, the emitted labels are `"KM 0", "KM 0"` — the numeric
values are not strictly increasing, refuting the claim for every
`step_km > 0`. -/
theorem c10_counterexample :
    (0:ℚ) < 3/10 ∧
    ¬ List.Pairwise (· < ·)
        (km_values (parse_gpx_route dabs (3/10) [0, 3/10, 3/5])) := by
  refine ⟨by norm_num, ?_⟩
  have hf1 : ⌊(3/10 : ℚ)⌋ = 0 := by
    rw [Int.floor_eq_iff]
    norm_num
  have hf2 : ⌊(3/5 : ℚ)⌋ = 0 := by
    rw [Int.floor_eq_iff]
    norm_num
  have h : parse_gpx_route dabs (3/10) [0, 3/10, 3/5] =
      [{ name := Label.START, pos := 0 }, { name := Label.KM 0, pos := 3/10 },
       { name := Label.KM 0, pos := 3/5 },
       { name := Label.FINISH, pos := 3/5 }] := by
    norm_num [parse_gpx_route, routeLoop, dabs, py_int, List.getLast, hf1, hf2]
  rw [h]
  simp [km_values, List.filterMap_cons]

/-- C10 witness: the amended statement at `step_km = 1` on colinear points
0, 1, 2 km (labels `KM 1`, `KM 2`). -/
theorem c10_km_labels_strictly_increasing_witness :
    List.Pairwise (· < ·) (km_values (parse_gpx_route dabs 1 [0, 1, 2])) :=
  c10_km_labels_strictly_increasing dabs 1 [0, 1, 2] le_rfl
